import Mathlib

/-!
Verification of the signal-generation and position-lifecycle engine of the
`sniper` trading bot (files `trading_strategy.py` and `main_bot.py`).

The embedding is shallow:

* Prices, balances and strategy parameters are rationals (`ℚ`); the Python
  code uses IEEE doubles, but every operation the claims exercise is exact
  field arithmetic, so `ℚ` is a faithful carrier for the finite values.
* pandas series cells can also hold the non-finite values `NaN` and `±inf`
  (produced, e.g., by `gain / loss` with a zero denominator and by rolling
  windows that are not yet warm).  These are modelled by the type `FVal`
  below, with IEEE propagation and comparison rules (`NaN` compares false).
* A pandas `DataFrame` is modelled as its numeric `close` column plus an
  association list of named indicator columns; in-place mutation
  (`data['SMA_Fast'] = ...`) becomes functional update of that list.
* Stateful code (mutation of `position['current_high']`, of the
  `open_positions` dict and of `current_usdt_balance`) is modelled by
  explicit state passing: each function returns the updated state.
-/

/- Core marks the `Rat` field operations `@[irreducible]`; restoring their
reducibility lets `decide` evaluate the embedding on concrete inputs. -/
set_option allowUnsafeReducibility true
attribute [semireducible] Rat.add Rat.sub Rat.mul Rat.inv

namespace Sniper

/-- Model of an IEEE double as stored in a pandas float column: either a
finite value (carried exactly as a rational), `+inf`, `-inf`, or `NaN`. -/
inductive FVal where
  | fin (q : ℚ)
  | inf
  | ninf
  | nan
deriving DecidableEq, Repr

/-- IEEE addition on `FVal` (only the cases pandas can produce here). -/
def faddF : FVal → FVal → FVal
  | .fin a, .fin b => .fin (a + b)
  | .nan, _ => .nan
  | _, .nan => .nan
  | .inf, .ninf => .nan
  | .ninf, .inf => .nan
  | .inf, _ => .inf
  | _, .inf => .inf
  | .ninf, _ => .ninf
  | _, .ninf => .ninf

/-- IEEE subtraction on `FVal`. -/
def fsubF : FVal → FVal → FVal
  | .fin a, .fin b => .fin (a - b)
  | .nan, _ => .nan
  | _, .nan => .nan
  | .inf, .inf => .nan
  | .ninf, .ninf => .nan
  | .inf, _ => .inf
  | .ninf, _ => .ninf
  | _, .inf => .ninf
  | _, .ninf => .inf

/-- IEEE division on `FVal`.  The decisive case for the RSI computation is
`fin a / fin 0`: numpy emits `+inf` for `a > 0`, `-inf` for `a < 0` and
`NaN` for `0/0` — it does not raise. -/
def fdivF : FVal → FVal → FVal
  | .fin a, .fin b =>
      if b = 0 then (if 0 < a then .inf else if a < 0 then .ninf else .nan)
      else .fin (a / b)
  | .nan, _ => .nan
  | _, .nan => .nan
  | .fin _, .inf => .fin 0
  | .fin _, .ninf => .fin 0
  | .inf, .fin b => if b < 0 then .ninf else .inf
  | .ninf, .fin b => if b < 0 then .inf else .ninf
  | .inf, .inf => .nan
  | .inf, .ninf => .nan
  | .ninf, .inf => .nan
  | .ninf, .ninf => .nan

/-- IEEE `≤` on `FVal`: any comparison involving `NaN` is `false`. -/
def fleF : FVal → FVal → Bool
  | .nan, _ => false
  | _, .nan => false
  | .ninf, _ => true
  | _, .ninf => false
  | _, .inf => true
  | .inf, _ => false
  | .fin a, .fin b => a ≤ b

/-- IEEE `<` on `FVal`: any comparison involving `NaN` is `false`. -/
def fltF : FVal → FVal → Bool
  | .nan, _ => false
  | _, .nan => false
  | _, .ninf => false
  | .ninf, _ => true
  | .inf, _ => false
  | _, .inf => true
  | .fin a, .fin b => a < b

/-- IEEE `>` on `FVal`. -/
def fgtF (a b : FVal) : Bool := fltF b a

/-- IEEE `≥` on `FVal`. -/
def fgeF (a b : FVal) : Bool := fleF b a

/-! ## Indicator columns (`TradingStrategy._calculate_*`, lines 28-62)

Each `_calculate_*` method assigns whole columns computed from the `close`
column.  The column-level functions below reproduce the pandas pipelines
cell by cell. -/

/-- `series.rolling(window=w).mean()` evaluated at every index: the cell at
index `i` is the arithmetic mean of the trailing `w` values when the window
is full, and `NaN` during warm-up (pandas' default `min_periods = window`). -/
def rollingMeanCol (w : ℕ) (xs : List ℚ) : List FVal :=
  (List.range xs.length).map fun i =>
    if 1 ≤ w ∧ w ≤ i + 1 then .fin (((xs.take (i + 1)).drop (i + 1 - w)).sum / (w : ℚ))
    else .nan

/-- `delta.where(delta > 0, 0)` for `delta = close.diff()` (line 45).
`diff()` puts `NaN` at index 0; `NaN > 0` is `False`, so `.where` replaces
that cell by `0`, leaving a fully finite series. -/
def gainSeries : List ℚ → List ℚ
  | [] => []
  | c :: cs => 0 :: List.zipWith (fun prev cur => if 0 < cur - prev then cur - prev else 0) (c :: cs) cs

/-- `(-delta.where(delta < 0, 0))` (line 46), with the same index-0
convention as `gainSeries`. -/
def lossSeries : List ℚ → List ℚ
  | [] => []
  | c :: cs => 0 :: List.zipWith (fun prev cur => if cur - prev < 0 then -(cur - prev) else 0) (c :: cs) cs

/-- Line 48, `rs = gain / loss`: elementwise float division of the two
rolling means.  There is no guard — a zero average loss flows into `fdivF`
and produces `+inf` or `NaN`. -/
def rsCol (w : ℕ) (closes : List ℚ) : List FVal :=
  List.zipWith fdivF (rollingMeanCol w (gainSeries closes)) (rollingMeanCol w (lossSeries closes))

/-- Line 49, `RSI = 100 - (100 / (1 + rs))`, applied to one `rs` cell. -/
def rsiFromRS (rs : FVal) : FVal :=
  fsubF (.fin 100) (fdivF (.fin 100) (faddF (.fin 1) rs))

/-- The full `RSI` column of `_calculate_rsi` (lines 44-49). -/
def rsiCol (w : ℕ) (closes : List ℚ) : List FVal :=
  (rsCol w closes).map rsiFromRS

/-- `series.ewm(span=s, adjust=False).mean()` with `alpha = 2/(s+1)`:
`y₀ = x₀`, `yₜ = alpha·xₜ + (1-alpha)·yₜ₋₁`.  Helper carrying the previous
smoothed value. -/
def ewmFrom (alpha prev : ℚ) : List ℚ → List ℚ
  | [] => []
  | x :: xs =>
      let cur := alpha * x + (1 - alpha) * prev
      cur :: ewmFrom alpha cur xs

/-- `series.ewm(span=s, adjust=False).mean()` over a whole series. -/
def ewmList (alpha : ℚ) : List ℚ → List ℚ
  | [] => []
  | x :: xs => x :: ewmFrom alpha x xs

/-- Line 58-60: `MACD = close.ewm(span=12) - close.ewm(span=26)` as a
rational series (the close column is finite, so no `NaN` can appear). -/
def macdQ (closes : List ℚ) : List ℚ :=
  List.zipWith (· - ·) (ewmList (2 / 13) closes) (ewmList (2 / 27) closes)

/-- The `MACD` column as stored in the frame. -/
def macdColumn (closes : List ℚ) : List FVal :=
  (macdQ closes).map .fin

/-- Line 61: `Signal = MACD.ewm(span=9, adjust=False).mean()`.  At the point
of the assignment the `MACD` column holds exactly `macdQ closes`, so the
signal line is a function of the close series alone. -/
def signalColumn (closes : List ℚ) : List FVal :=
  (ewmList (2 / 10) (macdQ closes)).map .fin

/-! ## The DataFrame model -/

/-- A pandas DataFrame as the strategy sees it: the numeric `close` column
(always present on the kline frames the bot feeds in, so the
`'close' not in data.columns` guards of lines 30/40/54 never fire) plus the
named float columns the indicator methods assign. -/
structure DataFrame where
  closes : List ℚ
  cols : List (String × List FVal)
deriving DecidableEq, Repr

/-- `DataFrame.copy()` (line 109): a value copy.  In the embedding frames
are immutable values, so the copy is the identity; the point it models is
that subsequent column assignments act on the copy, never on the caller's
`historical_data`. -/
def DataFrame.copy (d : DataFrame) : DataFrame := d

/-- Column assignment `data[name] = v`: overwrite the column if it exists,
append it otherwise. -/
def setCol : List (String × List FVal) → String → List FVal → List (String × List FVal)
  | [], n, v => [(n, v)]
  | (m, w) :: rest, n, v => if m = n then (n, v) :: rest else (m, w) :: setCol rest n v

/-- Column lookup `data[name]`. -/
def getCol : List (String × List FVal) → String → Option (List FVal)
  | [], _ => none
  | (m, w) :: rest, n => if m = n then some w else getCol rest n

/-- `data[name].iloc[-1]`.  Under the warm-up gate of
`execute_strategy_cycle` the column exists and is non-empty, so the `nan`
defaults are never reached there. -/
def lastEntry (xs : List FVal) : FVal := xs.getLast?.getD .nan

/-- `data[name].iloc[-2]`. -/
def penultEntry (xs : List FVal) : FVal := xs.dropLast.getLast?.getD .nan

/-- `data[name].iloc[-1]` on a frame. -/
def colLast (d : DataFrame) (n : String) : FVal := lastEntry ((getCol d.cols n).getD [])

/-- `data[name].iloc[-2]` on a frame. -/
def colPenult (d : DataFrame) (n : String) : FVal := penultEntry ((getCol d.cols n).getD [])

/-! ## Strategy parameters (`TradingStrategy.__init__`, from `settings.py`) -/

/-- The strategy parameters read in `TradingStrategy.__init__`. -/
structure StrategyParams where
  sma_fast_period : ℕ
  sma_slow_period : ℕ
  rsi_period : ℕ
  overbought_rsi : ℚ
  oversold_rsi : ℚ
  stop_loss_percent : ℚ
  take_profit_percent : ℚ
  trailing_stop_percent : ℚ
deriving DecidableEq, Repr

/-- The concrete values of `settings.py`. -/
def defaultParams : StrategyParams :=
  { sma_fast_period := 10
    sma_slow_period := 20
    rsi_period := 14
    overbought_rsi := 70
    oversold_rsi := 30
    stop_loss_percent := 5 / 100
    take_profit_percent := 10 / 100
    trailing_stop_percent := 5 / 100 }

/-- `TradingStrategy._calculate_smas` (lines 28-36): assigns `SMA_Fast`
then `SMA_Slow`. -/
def calculate_smas (p : StrategyParams) (d : DataFrame) : DataFrame :=
  { d with cols := (setCol (setCol d.cols "SMA_Fast" (rollingMeanCol p.sma_fast_period d.closes))
      "SMA_Slow" (rollingMeanCol p.sma_slow_period d.closes)) }

/-- `TradingStrategy._calculate_rsi` (lines 38-50): assigns `RSI`. -/
def calculate_rsi (p : StrategyParams) (d : DataFrame) : DataFrame :=
  { d with cols := setCol d.cols "RSI" (rsiCol p.rsi_period d.closes) }

/-- `TradingStrategy._calculate_macd` (lines 52-62): assigns `MACD` then
`Signal`. -/
def calculate_macd (d : DataFrame) : DataFrame :=
  { d with cols := (setCol (setCol d.cols "MACD" (macdColumn d.closes))
      "Signal" (signalColumn d.closes)) }

/-- Lines 109-112 of `execute_strategy_cycle`: the Indicator Engine pass,
applied to (a copy of) the historical frame. -/
def indicatorFrame (p : StrategyParams) (d : DataFrame) : DataFrame :=
  calculate_macd (calculate_rsi p (calculate_smas p d))

/-! ## Positions and signals -/

/-- A position dict as built by `TradingStrategy._simulate_buy` (lines
64-77) and tracked in the `open_positions` mapping.  `entry_time` keeps the
raw millisecond timestamp (the Python code converts it to a `datetime`,
an injective re-rendering that no claim depends on). -/
structure Position where
  symbol : String
  entry_price : ℚ
  bought_quantity : ℚ
  entry_time : ℤ
  order_id : String
  current_high : ℚ
  last_price_checked : ℚ
deriving DecidableEq, Repr

/-- The four sell reasons of lines 134/140/147/153, as an enum standing for
the reason strings. -/
inductive ExitReason where
  | stopLoss
  | takeProfit
  | trailingStop
  | rsiOverbought
deriving DecidableEq, Repr

/-- A potential-buy signal (`new_position_data`, lines 164-193): an entry
candidate with its attractiveness score.  The score is stored as the float
`100 - RSI` is. -/
structure BuySignal where
  symbol : String
  price : ℚ
  timestamp : ℤ
  score : FVal
deriving DecidableEq, Repr

/-- Dict lookup `symbol in current_positions` / `current_positions[symbol]`. -/
def lookupPos : List (String × Position) → String → Option Position
  | [], _ => none
  | (m, q) :: rest, n => if m = n then some q else lookupPos rest n

/-- Dict assignment `current_positions[symbol] = pos`: overwrite the entry
if the key exists, append otherwise. -/
def setPos : List (String × Position) → String → Position → List (String × Position)
  | [], n, v => [(n, v)]
  | (m, q) :: rest, n, v => if m = n then (n, v) :: rest else (m, q) :: setPos rest n v

/-- The result of one `execute_strategy_cycle` call.  The first two fields
are the function's Python return tuple; `current_positions` is the
positions dict after the call (the function mutates `position['current_high']`
in place, which explicit state passing surfaces here). -/
structure CycleResult where
  positions_to_close : List (String × ExitReason)
  new_position_data : Option BuySignal
  current_positions : List (String × Position)
deriving DecidableEq, Repr

/-- Line 102: `max(self.sma_slow_period, self.rsi_period, 26) + 1`. -/
def min_candles_needed (p : StrategyParams) : ℕ :=
  max (max p.sma_slow_period p.rsi_period) 26 + 1

/-- The exit-rule cascade of lines 131-155, in source order with the early
returns of the Python code: stop-loss, then take-profit, then trailing
stop, then overbought RSI; at most one reason is appended.  The local
variable `current_high = max(position['current_high'], current_price)`
of line 126 is inlined into the trailing-stop condition (line 145). -/
def exitChecks (p : StrategyParams) (symbol : String) (current_price : ℚ)
    (position : Position) (rsi : FVal) : List (String × ExitReason) :=
  if current_price ≤ position.entry_price * (1 - p.stop_loss_percent) then
    [(symbol, ExitReason.stopLoss)]
  else if current_price ≥ position.entry_price * (1 + p.take_profit_percent) then
    [(symbol, ExitReason.takeProfit)]
  else if current_price ≤ (max position.current_high current_price) * (1 - p.trailing_stop_percent) then
    [(symbol, ExitReason.trailingStop)]
  else if fgeF rsi (.fin p.overbought_rsi) then
    [(symbol, ExitReason.rsiOverbought)]
  else []

/-- The entry-rule cascade of lines 157-194: rule 1 (`SMA_Fast > SMA_Slow`
with non-overbought RSI), `elif` rule 2 (oversold RSI, then the same MA
test again), `elif` rule 3 (MACD crossover with non-overbought RSI).  All
comparisons are float comparisons (false on `NaN`). -/
def entrySignal (p : StrategyParams) (symbol : String) (price : ℚ) (timestamp : ℤ)
    (smaFast smaSlow rsi macd macdSignal macdPrev signalPrev : FVal) : Option BuySignal :=
  if fgtF smaFast smaSlow then
    (if fleF rsi (.fin p.overbought_rsi) then
      some { symbol := symbol, price := price, timestamp := timestamp,
             score := fsubF (.fin 100) rsi }
     else none)
  else if fleF rsi (.fin p.oversold_rsi) then
    (if fgtF smaFast smaSlow then
      some { symbol := symbol, price := price, timestamp := timestamp,
             score := fsubF (.fin 100) rsi }
     else none)
  else if fgtF macd macdSignal && fleF macdPrev signalPrev && fleF rsi (.fin p.overbought_rsi) then
    some { symbol := symbol, price := price, timestamp := timestamp,
           score := fsubF (.fin 100) rsi }
  else none

set_option linter.unusedVariables false in
/-- `TradingStrategy.execute_strategy_cycle` (lines 79-197).
`current_capital` is accepted and, as in the source, never used.  The
`iloc[-1] is None` checks of line 115 are omitted because they are
vacuous in the source: pandas float cells hold `NaN`, which is never
`None`, so that branch cannot trigger.  The local variable
`data = historical_data.copy()` (lines 109-112) is inlined as
`indicatorFrame p historical_data.copy` at every read. -/
def execute_strategy_cycle (p : StrategyParams) (current_capital : ℚ)
    (current_positions : List (String × Position)) (symbol : String)
    (current_price : ℚ) (timestamp : ℤ) (historical_data : DataFrame) : CycleResult :=
  if historical_data.closes.length < min_candles_needed p then
    { positions_to_close := [], new_position_data := none,
      current_positions := current_positions }
  else
    match lookupPos current_positions symbol with
    | some position =>
        { positions_to_close := exitChecks p symbol current_price position
            (colLast (indicatorFrame p historical_data.copy) "RSI"),
          new_position_data := none,
          current_positions := setPos current_positions symbol
            { position with current_high := max position.current_high current_price } }
    | none =>
        { positions_to_close := [],
          new_position_data := entrySignal p symbol current_price timestamp
            (colLast (indicatorFrame p historical_data.copy) "SMA_Fast")
            (colLast (indicatorFrame p historical_data.copy) "SMA_Slow")
            (colLast (indicatorFrame p historical_data.copy) "RSI")
            (colLast (indicatorFrame p historical_data.copy) "MACD")
            (colLast (indicatorFrame p historical_data.copy) "Signal")
            (colPenult (indicatorFrame p historical_data.copy) "MACD")
            (colPenult (indicatorFrame p historical_data.copy) "Signal"),
          current_positions := current_positions }

/-! ## Allocation (`run_bot`, `main_bot.py` lines 154-206) -/

/-- `TradingStrategy._simulate_buy` (lines 64-77). -/
def simulate_buy (symbol : String) (price : ℚ) (timestamp : ℤ) (trade_amount : ℚ) : Position :=
  { symbol := symbol
    entry_price := price
    bought_quantity := trade_amount / price
    entry_time := timestamp
    order_id := "SIMULATED_BUY_" ++ toString timestamp
    current_high := price
    last_price_checked := price }

/-- Lines 177-187: the trade amount starts as the fixed
`TRADE_AMOUNT_USDT` and is clamped down to the available balance. -/
def tradeAmountFor (fixedAmt balance : ℚ) : ℚ :=
  if fixedAmt > balance then balance else fixedAmt

/-- State threaded through the allocation loop: the `open_positions` dict,
the running `current_usdt_balance`, and the trace of executed simulated
buys (each signal with the amount actually committed — exactly the
arguments of the `_simulate_buy` calls made). -/
structure AllocState where
  open_positions : List (String × Position)
  balance : ℚ
  committed : List (BuySignal × ℚ)
deriving DecidableEq, Repr

/-- The `for signal in potential_buy_signals` loop of lines 170-206:
break on full slots (`len(open_positions) >= MAX_OPEN_POSITIONS`), clamp
the trade amount, commit if it still meets `MIN_TRADE_AMOUNT_USDT`, and
otherwise break out of the loop entirely. -/
def allocLoop (maxPositions : ℕ) (fixedAmt minAmt : ℚ) :
    List BuySignal → AllocState → AllocState
  | [], st => st
  | sig :: rest, st =>
    if maxPositions ≤ st.open_positions.length then st
    else
      if tradeAmountFor fixedAmt st.balance ≥ minAmt then
        allocLoop maxPositions fixedAmt minAmt rest
          { open_positions := setPos st.open_positions sig.symbol
              (simulate_buy sig.symbol sig.price sig.timestamp (tradeAmountFor fixedAmt st.balance))
            balance := st.balance - tradeAmountFor fixedAmt st.balance
            committed := st.committed ++ [(sig, tradeAmountFor fixedAmt st.balance)] }
      else st

/-- Stable insertion step for the descending sort: `x` is placed before the
first element whose score is strictly below `x`'s, so equal scores keep
their original relative order — the semantics of Python's stable
`list.sort(key=..., reverse=True)`. -/
def insertByScore (x : BuySignal) : List BuySignal → List BuySignal
  | [] => [x]
  | y :: ys => if fltF y.score x.score then x :: y :: ys else y :: insertByScore x ys

/-- Line 157: `potential_buy_signals.sort(key=lambda x: x['score'], reverse=True)`. -/
def sortSignals (l : List BuySignal) : List BuySignal :=
  l.foldl (fun acc x => insertByScore x acc) []

/-- Phase 3 of `run_bot` (lines 154-206): sort the candidates by score
descending, skip allocation when no slot is free
(`slots_available <= 0`), otherwise run the allocation loop. -/
def phase3 (maxPositions : ℕ) (fixedAmt minAmt : ℚ) (signals : List BuySignal)
    (open_positions : List (String × Position)) (balance : ℚ) : AllocState :=
  let sorted := sortSignals signals
  if (maxPositions : ℤ) - open_positions.length ≤ 0 then
    { open_positions := open_positions, balance := balance, committed := [] }
  else
    allocLoop maxPositions fixedAmt minAmt sorted
      { open_positions := open_positions, balance := balance, committed := [] }

/-- Sum of the committed trade amounts in an allocation trace. -/
def sumAmounts (l : List (BuySignal × ℚ)) : ℚ :=
  (l.map Prod.snd).sum

/-! ## Concrete inputs used by witnesses and counterexamples -/

/-- 27 closes: a steady climb for 13 bars, then an up-2/down-1 zig-zag.
At the last bar: `SMA_Fast(10) = 235/2 > SMA_Slow(20) = 572/5`, average
gain `1`, average loss `1/2`, so `RSI = 200/3 ≈ 66.7 ≤ 70`: entry rule 1
fires. -/
def c27mix : List ℚ :=
  [100, 101, 102, 103, 104, 105, 106, 107, 108, 109, 110, 111, 112,
   114, 113, 115, 114, 116, 115, 117, 116, 118, 117, 119, 118, 120, 119]

/-- 27 strictly increasing closes: every bar-over-bar loss is `0`. -/
def c27up : List ℚ := (List.range 27).map (fun i => (100 : ℚ) + i)

/-- 27 constant closes: every gain and every loss is `0`. -/
def c27flat : List ℚ := List.replicate 27 (100 : ℚ)

/-- Frame on the zig-zag series, no pre-existing indicator columns. -/
def dfMix : DataFrame := { closes := c27mix, cols := [] }

/-- Frame on the flat series. -/
def dfFlat : DataFrame := { closes := c27flat, cols := [] }

/-- Frame on the flat series carrying a stale `RSI` column, to check that
the evaluator recomputes indicators instead of reading leftovers. -/
def dfStale : DataFrame := { closes := c27flat, cols := [("RSI", [FVal.fin 999])] }

/-- A 5-bar frame: below every warm-up threshold of `defaultParams`. -/
def df5 : DataFrame := { closes := List.replicate 5 (100 : ℚ), cols := [] }

/-- A degenerate open position with entry price 0: the only way both the
stop-loss and the take-profit inequality can hold at once. -/
def posZero : Position :=
  { symbol := "X", entry_price := 0, bought_quantity := 1, entry_time := 0,
    order_id := "SIMULATED_BUY_0", current_high := 0, last_price_checked := 0 }

/-- An open position bought at 100 whose running high is 105. -/
def posHigh : Position :=
  { symbol := "X", entry_price := 100, bought_quantity := 1, entry_time := 0,
    order_id := "SIMULATED_BUY_0", current_high := 105, last_price_checked := 100 }

/-- The candidate the evaluator produces on `dfMix` (score `100 - 200/3`). -/
def candMix : BuySignal :=
  { symbol := "BTCUSDT", price := 119, timestamp := 0, score := .fin (100 / 3) }

/-- Candidate A of the spec's allocation-determinism scenario. -/
def sigA : BuySignal := { symbol := "A", price := 1, timestamp := 0, score := .fin 80 }

/-- Candidate B of the spec's allocation-determinism scenario. -/
def sigB : BuySignal := { symbol := "B", price := 1, timestamp := 0, score := .fin 95 }

/-- Candidate C of the spec's allocation-determinism scenario. -/
def sigC : BuySignal := { symbol := "C", price := 1, timestamp := 0, score := .fin 60 }

/-- Fresh allocation state with a balance of 1000. -/
def stW : AllocState := { open_positions := [], balance := 1000, committed := [] }

/-! ## Helper lemmas -/

theorem getCol_setCol_self (cols : List (String × List FVal)) (n : String) (v : List FVal) :
    getCol (setCol cols n v) n = some v := by
  induction cols with
  | nil => simp [setCol, getCol]
  | cons hd tl ih =>
      obtain ⟨m, w⟩ := hd
      by_cases h : m = n
      · simp [setCol, getCol, h]
      · simp [setCol, getCol, h, ih]

theorem getCol_setCol_ne (cols : List (String × List FVal)) (m n : String) (v : List FVal)
    (h : m ≠ n) : getCol (setCol cols m v) n = getCol cols n := by
  induction cols with
  | nil => simp [setCol, getCol, h]
  | cons hd tl ih =>
      obtain ⟨k, w⟩ := hd
      by_cases hk : k = m
      · subst hk; simp [setCol, getCol, h]
      · simp [setCol, getCol, hk, ih]

theorem indicatorFrame_closes (p : StrategyParams) (d : DataFrame) :
    (indicatorFrame p d).closes = d.closes := rfl

/-- Column-level description of the Indicator Engine pass: the five
indicator columns are overwritten with functions of the close series and
every other column is left alone. -/
theorem getCol_indicatorFrame (p : StrategyParams) (d : DataFrame) (n : String) :
    getCol (indicatorFrame p d).cols n =
      if n = "Signal" then some (signalColumn d.closes)
      else if n = "MACD" then some (macdColumn d.closes)
      else if n = "RSI" then some (rsiCol p.rsi_period d.closes)
      else if n = "SMA_Slow" then some (rollingMeanCol p.sma_slow_period d.closes)
      else if n = "SMA_Fast" then some (rollingMeanCol p.sma_fast_period d.closes)
      else getCol d.cols n := by
  show getCol (setCol (setCol (setCol (setCol (setCol d.cols
      "SMA_Fast" (rollingMeanCol p.sma_fast_period d.closes))
      "SMA_Slow" (rollingMeanCol p.sma_slow_period d.closes))
      "RSI" (rsiCol p.rsi_period d.closes))
      "MACD" (macdColumn d.closes))
      "Signal" (signalColumn d.closes)) n = _
  by_cases h1 : n = "Signal"
  · subst h1; rw [getCol_setCol_self]; simp
  · rw [getCol_setCol_ne _ _ _ _ (fun e => h1 e.symm), if_neg h1]
    by_cases h2 : n = "MACD"
    · subst h2; rw [getCol_setCol_self]; simp
    · rw [getCol_setCol_ne _ _ _ _ (fun e => h2 e.symm), if_neg h2]
      by_cases h3 : n = "RSI"
      · subst h3; rw [getCol_setCol_self]; simp
      · rw [getCol_setCol_ne _ _ _ _ (fun e => h3 e.symm), if_neg h3]
        by_cases h4 : n = "SMA_Slow"
        · subst h4; rw [getCol_setCol_self]; simp
        · rw [getCol_setCol_ne _ _ _ _ (fun e => h4 e.symm), if_neg h4]
          by_cases h5 : n = "SMA_Fast"
          · subst h5; rw [getCol_setCol_self]; simp
          · rw [getCol_setCol_ne _ _ _ _ (fun e => h5 e.symm), if_neg h5]

theorem colLast_indicatorFrame_smaFast (p : StrategyParams) (d : DataFrame) :
    colLast (indicatorFrame p d) "SMA_Fast" = lastEntry (rollingMeanCol p.sma_fast_period d.closes) := by
  simp [colLast, getCol_indicatorFrame]

theorem colLast_indicatorFrame_smaSlow (p : StrategyParams) (d : DataFrame) :
    colLast (indicatorFrame p d) "SMA_Slow" = lastEntry (rollingMeanCol p.sma_slow_period d.closes) := by
  simp [colLast, getCol_indicatorFrame]

theorem colLast_indicatorFrame_rsi (p : StrategyParams) (d : DataFrame) :
    colLast (indicatorFrame p d) "RSI" = lastEntry (rsiCol p.rsi_period d.closes) := by
  simp [colLast, getCol_indicatorFrame]

theorem colLast_indicatorFrame_macd (p : StrategyParams) (d : DataFrame) :
    colLast (indicatorFrame p d) "MACD" = lastEntry (macdColumn d.closes) := by
  simp [colLast, getCol_indicatorFrame]

theorem colLast_indicatorFrame_signalLine (p : StrategyParams) (d : DataFrame) :
    colLast (indicatorFrame p d) "Signal" = lastEntry (signalColumn d.closes) := by
  simp [colLast, getCol_indicatorFrame]

theorem colPenult_indicatorFrame_macd (p : StrategyParams) (d : DataFrame) :
    colPenult (indicatorFrame p d) "MACD" = penultEntry (macdColumn d.closes) := by
  simp [colPenult, getCol_indicatorFrame]

theorem colPenult_indicatorFrame_signalLine (p : StrategyParams) (d : DataFrame) :
    colPenult (indicatorFrame p d) "Signal" = penultEntry (signalColumn d.closes) := by
  simp [colPenult, getCol_indicatorFrame]

theorem lookupPos_setPos_self (l : List (String × Position)) (n : String) (v : Position) :
    lookupPos (setPos l n v) n = some v := by
  induction l with
  | nil => simp [setPos, lookupPos]
  | cons hd tl ih =>
      obtain ⟨m, w⟩ := hd
      by_cases h : m = n
      · simp [setPos, lookupPos, h]
      · simp [setPos, lookupPos, h, ih]

theorem tradeAmountFor_le (fixedAmt balance : ℚ) : tradeAmountFor fixedAmt balance ≤ balance := by
  unfold tradeAmountFor
  split
  · exact le_refl balance
  · exact le_of_not_lt (by assumption)

theorem sumAmounts_append (l l' : List (BuySignal × ℚ)) :
    sumAmounts (l ++ l') = sumAmounts l + sumAmounts l' := by
  simp [sumAmounts]

/-- Unfolding `execute_strategy_cycle` when a position is open for the
symbol and the history is long enough. -/
theorem execute_of_lookup_some (p : StrategyParams) (cap : ℚ)
    (cp : List (String × Position)) (sym : String) (price : ℚ) (ts : ℤ)
    (d : DataFrame) (pos : Position)
    (hgate : ¬ d.closes.length < min_candles_needed p)
    (hpos : lookupPos cp sym = some pos) :
    execute_strategy_cycle p cap cp sym price ts d =
      { positions_to_close := exitChecks p sym price pos (colLast (indicatorFrame p d.copy) "RSI"),
        new_position_data := none,
        current_positions := setPos cp sym
          { pos with current_high := max pos.current_high price } } := by
  unfold execute_strategy_cycle
  rw [if_neg hgate, hpos]

/-- Unfolding `execute_strategy_cycle` when no position is open for the
symbol and the history is long enough. -/
theorem execute_of_lookup_none (p : StrategyParams) (cap : ℚ)
    (cp : List (String × Position)) (sym : String) (price : ℚ) (ts : ℤ)
    (d : DataFrame)
    (hgate : ¬ d.closes.length < min_candles_needed p)
    (hpos : lookupPos cp sym = none) :
    execute_strategy_cycle p cap cp sym price ts d =
      { positions_to_close := [],
        new_position_data := entrySignal p sym price ts
          (colLast (indicatorFrame p d.copy) "SMA_Fast")
          (colLast (indicatorFrame p d.copy) "SMA_Slow")
          (colLast (indicatorFrame p d.copy) "RSI")
          (colLast (indicatorFrame p d.copy) "MACD")
          (colLast (indicatorFrame p d.copy) "Signal")
          (colPenult (indicatorFrame p d.copy) "MACD")
          (colPenult (indicatorFrame p d.copy) "Signal"),
        current_positions := cp } := by
  unfold execute_strategy_cycle
  rw [if_neg hgate, hpos]

/-- The exit cascade appends at most one reason. -/
theorem exitChecks_length_le_one (p : StrategyParams) (sym : String) (price : ℚ)
    (pos : Position) (rsi : FVal) :
    (exitChecks p sym price pos rsi).length ≤ 1 := by
  unfold exitChecks
  split_ifs <;> simp

/-- Any candidate the entry cascade produces carries score
`100 - RSI` (as a float subtraction). -/
theorem entrySignal_score (p : StrategyParams) (sym : String) (price : ℚ) (ts : ℤ)
    (smaFast smaSlow rsi macd macdSignal macdPrev signalPrev : FVal) (c : BuySignal)
    (h : entrySignal p sym price ts smaFast smaSlow rsi macd macdSignal macdPrev signalPrev = some c) :
    c.score = fsubF (.fin 100) rsi := by
  unfold entrySignal at h
  by_cases h1 : fgtF smaFast smaSlow = true
  · rw [if_pos h1] at h
    by_cases h2 : fleF rsi (FVal.fin p.overbought_rsi) = true
    · rw [if_pos h2] at h
      injection h with hc
      subst hc
      rfl
    · rw [if_neg h2] at h
      exact Option.noConfusion h
  · rw [if_neg h1] at h
    by_cases h3 : fleF rsi (FVal.fin p.oversold_rsi) = true
    · rw [if_pos h3, if_neg h1] at h
      exact Option.noConfusion h
    · rw [if_neg h3] at h
      by_cases h4 : (fgtF macd macdSignal && fleF macdPrev signalPrev
          && fleF rsi (FVal.fin p.overbought_rsi)) = true
      · rw [if_pos h4] at h
        injection h with hc
        subst hc
        rfl
      · rw [if_neg h4] at h
        exact Option.noConfusion h

/-- Any candidate the entry cascade produces comes out of rule 1 or rule 3:
the second branch never produces one, because its inner moving-average test
repeats the outer test that just failed. -/
theorem entrySignal_sources (p : StrategyParams) (sym : String) (price : ℚ) (ts : ℤ)
    (smaFast smaSlow rsi macd macdSignal macdPrev signalPrev : FVal) (c : BuySignal)
    (h : entrySignal p sym price ts smaFast smaSlow rsi macd macdSignal macdPrev signalPrev = some c) :
    (fgtF smaFast smaSlow = true ∧ fleF rsi (.fin p.overbought_rsi) = true)
    ∨ (fgtF macd macdSignal = true ∧ fleF macdPrev signalPrev = true
        ∧ fleF rsi (.fin p.overbought_rsi) = true) := by
  unfold entrySignal at h
  by_cases h1 : fgtF smaFast smaSlow = true
  · rw [if_pos h1] at h
    by_cases h2 : fleF rsi (FVal.fin p.overbought_rsi) = true
    · exact Or.inl ⟨h1, h2⟩
    · rw [if_neg h2] at h
      exact Option.noConfusion h
  · rw [if_neg h1] at h
    by_cases h3 : fleF rsi (FVal.fin p.oversold_rsi) = true
    · rw [if_pos h3, if_neg h1] at h
      exact Option.noConfusion h
    · rw [if_neg h3] at h
      by_cases h4 : (fgtF macd macdSignal && fleF macdPrev signalPrev
          && fleF rsi (FVal.fin p.overbought_rsi)) = true
      · simp only [Bool.and_eq_true] at h4
        exact Or.inr ⟨h4.1.1, h4.1.2, h4.2⟩
      · rw [if_neg h4] at h
        exact Option.noConfusion h

/-- Unfolding `execute_strategy_cycle` when the history is too short:
lines 101-106 return `([], None)` before any indicator is computed. -/
theorem execute_of_short_history (p : StrategyParams) (cap : ℚ)
    (cp : List (String × Position)) (sym : String) (price : ℚ) (ts : ℤ)
    (d : DataFrame) (hgate : d.closes.length < min_candles_needed p) :
    execute_strategy_cycle p cap cp sym price ts d =
      { positions_to_close := [], new_position_data := none, current_positions := cp } := by
  unfold execute_strategy_cycle
  rw [if_pos hgate]

/-- `sumAmounts` of a one-element trace. -/
theorem sumAmounts_single (x : BuySignal × ℚ) : sumAmounts [x] = x.2 := by
  simp [sumAmounts]

/-! ## Claims -/

/-- C1: the Allocation Algorithm considers entry candidates in descending
order of score and commits the highest-scoring fundable candidates first:
for candidates A (score 80), B (score 95), C (score 60) with one slot,
capital 1000, fixed trade amount 100 and minimum 10, the sorted order is
B, A, C; exactly one position is opened, it is for symbol B, and the
remaining capital is exactly 900. -/
theorem c1_allocation_determinism :
    (sortSignals [sigA, sigB, sigC]).map BuySignal.symbol = ["B", "A", "C"]
    ∧ phase3 1 100 10 [sigA, sigB, sigC] [] 1000 =
        { open_positions := [("B", simulate_buy "B" 1 0 100)]
          balance := 900
          committed := [(sigB, 100)] } := by
  decide

/-- C2: exit rules are evaluated in the fixed order stop-loss, take-profit,
trailing stop, overbought oscillator, short-circuiting on the first match,
so at most one exit reason fires per cycle; and whenever the stop-loss and
take-profit conditions hold simultaneously for an open position, the
decision is stop-loss, never take-profit. -/
theorem c2_exit_priority :
    (∀ (p : StrategyParams) (cap : ℚ) (cp : List (String × Position)) (sym : String)
        (price : ℚ) (ts : ℤ) (d : DataFrame),
      (execute_strategy_cycle p cap cp sym price ts d).positions_to_close.length ≤ 1)
    ∧ (∀ (p : StrategyParams) (cap : ℚ) (cp : List (String × Position)) (sym : String)
        (price : ℚ) (ts : ℤ) (d : DataFrame) (pos : Position),
      lookupPos cp sym = some pos →
      min_candles_needed p ≤ d.closes.length →
      price ≤ pos.entry_price * (1 - p.stop_loss_percent) →
      pos.entry_price * (1 + p.take_profit_percent) ≤ price →
      (execute_strategy_cycle p cap cp sym price ts d).positions_to_close
        = [(sym, ExitReason.stopLoss)]) := by
  constructor
  · intro p cap cp sym price ts d
    unfold execute_strategy_cycle
    split
    · simp
    · split
      · exact exitChecks_length_le_one _ _ _ _ _
      · simp
  · intro p cap cp sym price ts d pos hpos hgate hsl htp
    rw [execute_of_lookup_some p cap cp sym price ts d pos (Nat.not_lt.mpr hgate) hpos]
    show exitChecks p sym price pos (colLast (indicatorFrame p d.copy) "RSI")
      = [(sym, ExitReason.stopLoss)]
    unfold exitChecks
    rw [if_pos hsl]

/-- C2 witness: a degenerate position with entry price 0 evaluated at price
0 satisfies both the stop-loss and take-profit conditions at once, and the
fired reason is stop-loss. -/
theorem c2_exit_priority_witness :
    lookupPos [("X", posZero)] "X" = some posZero
    ∧ min_candles_needed defaultParams ≤ dfFlat.closes.length
    ∧ (0 : ℚ) ≤ posZero.entry_price * (1 - defaultParams.stop_loss_percent)
    ∧ posZero.entry_price * (1 + defaultParams.take_profit_percent) ≤ 0
    ∧ (execute_strategy_cycle defaultParams 1000 [("X", posZero)] "X" 0 0 dfFlat).positions_to_close
        = [("X", ExitReason.stopLoss)] :=
  ⟨by decide, by decide, by decide, by decide,
    c2_exit_priority.2 defaultParams 1000 [("X", posZero)] "X" 0 0 dfFlat posZero
      (by decide) (by decide) (by decide) (by decide)⟩

/-- C3: the second entry rule is unreachable: any candidate the evaluator
produces satisfies rule 1's condition (fast MA above slow MA with
non-overbought RSI) or rule 3's condition (MACD crossover with
non-overbought RSI); none is produced by the oversold branch, whose inner
moving-average test repeats the outer test that just failed. -/
theorem c3_second_entry_rule_unreachable :
    ∀ (p : StrategyParams) (cap : ℚ) (cp : List (String × Position)) (sym : String)
      (price : ℚ) (ts : ℤ) (d : DataFrame) (c : BuySignal),
    (execute_strategy_cycle p cap cp sym price ts d).new_position_data = some c →
    (fgtF (colLast (indicatorFrame p d.copy) "SMA_Fast")
        (colLast (indicatorFrame p d.copy) "SMA_Slow") = true
      ∧ fleF (colLast (indicatorFrame p d.copy) "RSI") (.fin p.overbought_rsi) = true)
    ∨ (fgtF (colLast (indicatorFrame p d.copy) "MACD")
        (colLast (indicatorFrame p d.copy) "Signal") = true
      ∧ fleF (colPenult (indicatorFrame p d.copy) "MACD")
          (colPenult (indicatorFrame p d.copy) "Signal") = true
      ∧ fleF (colLast (indicatorFrame p d.copy) "RSI") (.fin p.overbought_rsi) = true) := by
  intro p cap cp sym price ts d c h
  by_cases hgate : d.closes.length < min_candles_needed p
  · rw [execute_of_short_history p cap cp sym price ts d hgate] at h
    exact Option.noConfusion h
  · cases hl : lookupPos cp sym with
    | some pos =>
        rw [execute_of_lookup_some p cap cp sym price ts d pos hgate hl] at h
        exact Option.noConfusion h
    | none =>
        rw [execute_of_lookup_none p cap cp sym price ts d hgate hl] at h
        exact entrySignal_sources p sym price ts _ _ _ _ _ _ _ c h

/-- C3 witness: on the zig-zag frame the evaluator produces a candidate,
and it arises from rule 1. -/
theorem c3_second_entry_rule_unreachable_witness :
    (execute_strategy_cycle defaultParams 1000 [] "BTCUSDT" 119 0 dfMix).new_position_data
        = some candMix
    ∧ ((fgtF (colLast (indicatorFrame defaultParams dfMix.copy) "SMA_Fast")
          (colLast (indicatorFrame defaultParams dfMix.copy) "SMA_Slow") = true
        ∧ fleF (colLast (indicatorFrame defaultParams dfMix.copy) "RSI")
            (.fin defaultParams.overbought_rsi) = true)
      ∨ (fgtF (colLast (indicatorFrame defaultParams dfMix.copy) "MACD")
          (colLast (indicatorFrame defaultParams dfMix.copy) "Signal") = true
        ∧ fleF (colPenult (indicatorFrame defaultParams dfMix.copy) "MACD")
            (colPenult (indicatorFrame defaultParams dfMix.copy) "Signal") = true
        ∧ fleF (colLast (indicatorFrame defaultParams dfMix.copy) "RSI")
            (.fin defaultParams.overbought_rsi) = true)) :=
  ⟨by decide,
    c3_second_entry_rule_unreachable defaultParams 1000 [] "BTCUSDT" 119 0 dfMix candMix
      (by decide)⟩

/-- C4 counterexample: the claim says the zero-average-loss case is handled
by an explicit branch and that the gain/loss division is guarded against a
zero denominator.  It is not: on 27 strictly increasing closes the code's
`rs` cell is IEEE `+inf` — i.e. the division was executed with denominator
zero — and the resulting RSI of 100 arises purely from infinity
propagation; on 27 flat closes the RSI cell is `NaN` (0/0), not any
documented saturation value. -/
theorem c4_counterexample_unguarded_division :
    lastEntry (rsCol defaultParams.rsi_period c27up) = FVal.inf
    ∧ lastEntry (rsiCol defaultParams.rsi_period c27up) = FVal.fin 100
    ∧ lastEntry (rsiCol defaultParams.rsi_period c27flat) = FVal.nan := by
  decide

/-- C4 (amended): the code does not guard the division `rs = gain / loss`;
when the trailing average loss is zero and the average gain is positive,
`rs` is `+inf` and the RSI value saturates at 100 by floating-point
propagation alone, while a zero average gain with zero average loss yields
`NaN` — there is no explicit, documented branch. -/
theorem c4_amended_rsi_zero_loss :
    ∀ g : ℚ,
    (0 < g → fdivF (.fin g) (.fin 0) = .inf
      ∧ rsiFromRS (fdivF (.fin g) (.fin 0)) = .fin 100)
    ∧ fdivF (.fin 0) (.fin 0) = .nan
    ∧ rsiFromRS (fdivF (.fin 0) (.fin 0)) = .nan := by
  intro g
  refine ⟨?_, by decide, by decide⟩
  intro hg
  have h1 : fdivF (.fin g) (.fin 0) = .inf := by
    show (if (0 : ℚ) = 0 then (if 0 < g then FVal.inf else if g < 0 then FVal.ninf else FVal.nan)
        else FVal.fin (g / 0)) = FVal.inf
    rw [if_pos rfl, if_pos hg]
  refine ⟨h1, ?_⟩
  rw [h1]
  decide

/-- C4 witness: the amended statement at average gain 1, average loss 0. -/
theorem c4_amended_rsi_zero_loss_witness :
    (0 : ℚ) < 1
    ∧ fdivF (.fin 1) (.fin 0) = .inf
    ∧ rsiFromRS (fdivF (.fin 1) (.fin 0)) = .fin 100 :=
  ⟨by norm_num, ((c4_amended_rsi_zero_loss 1).1 (by norm_num)).1,
    ((c4_amended_rsi_zero_loss 1).1 (by norm_num)).2⟩

/-- C5: for every price history shorter than
`max(slow_MA_period, RSI_period, 26) + 1` bars the evaluator returns no
exit decision and no entry candidate and leaves the positions dict
untouched, whether or not a position is open; the function is total, so it
never raises. -/
theorem c5_insufficient_history_no_action :
    ∀ (p : StrategyParams) (cap : ℚ) (cp : List (String × Position)) (sym : String)
      (price : ℚ) (ts : ℤ) (d : DataFrame),
    d.closes.length < min_candles_needed p →
    execute_strategy_cycle p cap cp sym price ts d =
      { positions_to_close := [], new_position_data := none, current_positions := cp } := by
  intro p cap cp sym price ts d hgate
  exact execute_of_short_history p cap cp sym price ts d hgate

/-- C5 witness: a 5-bar history with an open position yields the no-op
result. -/
theorem c5_insufficient_history_no_action_witness :
    df5.closes.length < min_candles_needed defaultParams
    ∧ execute_strategy_cycle defaultParams 1000 [("X", posHigh)] "X" 103 0 df5 =
        { positions_to_close := [], new_position_data := none,
          current_positions := [("X", posHigh)] } :=
  ⟨by decide,
    c5_insufficient_history_no_action defaultParams 1000 [("X", posHigh)] "X" 103 0 df5
      (by decide)⟩

/-- C6: for an open position, every evaluation with sufficient history sets
the position's `current_high` to `max(previous current_high, current_price)`
as a side effect (whatever exit rule fires, if any), and that value is never
below the previous `current_high`, so `current_high` is non-decreasing
across cycles while the position stays open. -/
theorem c6_current_high_monotone :
    ∀ (p : StrategyParams) (cap : ℚ) (cp : List (String × Position)) (sym : String)
      (price : ℚ) (ts : ℤ) (d : DataFrame) (pos : Position),
    lookupPos cp sym = some pos →
    min_candles_needed p ≤ d.closes.length →
    lookupPos (execute_strategy_cycle p cap cp sym price ts d).current_positions sym
        = some { pos with current_high := max pos.current_high price }
    ∧ pos.current_high ≤ max pos.current_high price := by
  intro p cap cp sym price ts d pos hpos hgate
  rw [execute_of_lookup_some p cap cp sym price ts d pos (Nat.not_lt.mpr hgate) hpos]
  exact ⟨lookupPos_setPos_self cp sym _, le_max_left _ _⟩

/-- C6 witness: a position with running high 105 evaluated at price 103
keeps `current_high = 105` (no exit fires on the flat frame). -/
theorem c6_current_high_monotone_witness :
    lookupPos [("X", posHigh)] "X" = some posHigh
    ∧ min_candles_needed defaultParams ≤ dfFlat.closes.length
    ∧ lookupPos (execute_strategy_cycle defaultParams 1000 [("X", posHigh)] "X" 103 0
          dfFlat).current_positions "X"
        = some { posHigh with current_high := max posHigh.current_high 103 }
    ∧ posHigh.current_high ≤ max posHigh.current_high 103 :=
  ⟨by decide, by decide,
    (c6_current_high_monotone defaultParams 1000 [("X", posHigh)] "X" 103 0 dfFlat posHigh
      (by decide) (by decide)).1,
    (c6_current_high_monotone defaultParams 1000 [("X", posHigh)] "X" 103 0 dfFlat posHigh
      (by decide) (by decide)).2⟩

/-- C7: the trade amount for each candidate is
`min(fixed_trade_amount, available_capital)`, and as soon as that amount
falls below `minimum_trade_amount` the allocation loop stops entirely — no
later candidate is committed and the state is returned unchanged. -/
theorem c7_capital_exhaustion_halts_loop :
    ∀ (fixedAmt minAmt : ℚ) (maxP : ℕ) (signals : List BuySignal) (st : AllocState),
    tradeAmountFor fixedAmt st.balance = min fixedAmt st.balance
    ∧ (tradeAmountFor fixedAmt st.balance < minAmt →
        allocLoop maxP fixedAmt minAmt signals st = st) := by
  intro fixedAmt minAmt maxP signals st
  constructor
  · unfold tradeAmountFor
    split_ifs with h
    · exact (min_eq_right (le_of_lt h)).symm
    · exact (min_eq_left (not_lt.mp h)).symm
  · intro hlt
    cases signals with
    | nil => rfl
    | cons sig rest =>
        unfold allocLoop
        split_ifs with h1 h2
        · rfl
        · exact absurd h2 (not_le.mpr hlt)
        · rfl

/-- C7 witness: fixed amount 100, minimum 10, balance 5 — the clamped
amount is 5 < 10, and the loop opens zero positions, halting at the first
candidate. -/
theorem c7_capital_exhaustion_halts_loop_witness :
    tradeAmountFor 100 (5 : ℚ) = min 100 5
    ∧ tradeAmountFor 100 (5 : ℚ) < 10
    ∧ allocLoop 5 100 10 [sigA] { open_positions := [], balance := 5, committed := [] }
        = { open_positions := [], balance := 5, committed := [] } :=
  ⟨(c7_capital_exhaustion_halts_loop 100 10 5 [sigA]
      { open_positions := [], balance := 5, committed := [] }).1,
   by decide,
   (c7_capital_exhaustion_halts_loop 100 10 5 [sigA]
      { open_positions := [], balance := 5, committed := [] }).2 (by decide)⟩

/-- C8: every entry candidate the evaluator produces — through any of the
three entry rules — carries score `100 - RSI` of the last bar: the stored
score is the float subtraction `100 - RSI`, and whenever the RSI cell is a
finite value `q` the score is exactly `100 - q` (so RSI 30 gives exactly
70). -/
theorem c8_score_formula :
    ∀ (p : StrategyParams) (cap : ℚ) (cp : List (String × Position)) (sym : String)
      (price : ℚ) (ts : ℤ) (d : DataFrame) (c : BuySignal),
    (execute_strategy_cycle p cap cp sym price ts d).new_position_data = some c →
    c.score = fsubF (.fin 100) (colLast (indicatorFrame p d.copy) "RSI")
    ∧ (∀ q : ℚ, colLast (indicatorFrame p d.copy) "RSI" = .fin q →
        c.score = .fin (100 - q)) := by
  intro p cap cp sym price ts d c h
  by_cases hgate : d.closes.length < min_candles_needed p
  · rw [execute_of_short_history p cap cp sym price ts d hgate] at h
    exact Option.noConfusion h
  · cases hl : lookupPos cp sym with
    | some pos =>
        rw [execute_of_lookup_some p cap cp sym price ts d pos hgate hl] at h
        exact Option.noConfusion h
    | none =>
        rw [execute_of_lookup_none p cap cp sym price ts d hgate hl] at h
        have hs := entrySignal_score p sym price ts _ _ _ _ _ _ _ c h
        refine ⟨hs, ?_⟩
        intro q hq
        rw [hs, hq]
        rfl

/-- C8 witness: on the zig-zag frame the RSI cell is `200/3` and the
produced candidate's score is exactly `100 - 200/3 = 100/3`. -/
theorem c8_score_formula_witness :
    (execute_strategy_cycle defaultParams 1000 [] "BTCUSDT" 119 0 dfMix).new_position_data
        = some candMix
    ∧ colLast (indicatorFrame defaultParams dfMix.copy) "RSI" = .fin (200 / 3)
    ∧ candMix.score = .fin (100 - 200 / 3) :=
  ⟨by decide, by decide,
    (c8_score_formula defaultParams 1000 [] "BTCUSDT" 119 0 dfMix candMix (by decide)).2
      (200 / 3) (by decide)⟩

/-- C9: the Indicator Engine is a pure function of its input series: the
evaluator's outcome depends only on the close series (stale indicator
columns on the input frame are overwritten, never read), the engine leaves
the close series unchanged, re-running the engine on its own output
changes no column, and the `.copy()` the evaluator takes means the
caller's frame is a value the engine never touches. -/
theorem c9_indicator_engine_pure :
    ∀ (p : StrategyParams) (cap : ℚ) (cp : List (String × Position)) (sym : String)
      (price : ℚ) (ts : ℤ) (d d1 d2 : DataFrame),
    (d1.closes = d2.closes →
        execute_strategy_cycle p cap cp sym price ts d1
          = execute_strategy_cycle p cap cp sym price ts d2)
    ∧ (indicatorFrame p d).closes = d.closes
    ∧ (∀ n, getCol (indicatorFrame p (indicatorFrame p d)).cols n
          = getCol (indicatorFrame p d).cols n)
    ∧ DataFrame.copy d = d := by
  intro p cap cp sym price ts d d1 d2
  refine ⟨?_, rfl, ?_, rfl⟩
  · intro h
    unfold execute_strategy_cycle
    simp only [DataFrame.copy, colLast_indicatorFrame_smaFast, colLast_indicatorFrame_smaSlow,
      colLast_indicatorFrame_rsi, colLast_indicatorFrame_macd, colLast_indicatorFrame_signalLine,
      colPenult_indicatorFrame_macd, colPenult_indicatorFrame_signalLine]
    rw [h]
  · intro n
    rw [getCol_indicatorFrame p (indicatorFrame p d) n, getCol_indicatorFrame p d n]
    simp only [indicatorFrame_closes]
    split_ifs with s1 s2 s3 s4 s5 <;> rfl

/-- C9 witness: a stale `RSI` column pre-loaded on the input frame does not
change the evaluator's result on the same close series. -/
theorem c9_indicator_engine_pure_witness :
    dfFlat.closes = dfStale.closes
    ∧ execute_strategy_cycle defaultParams 1000 [] "BTCUSDT" 100 0 dfFlat
        = execute_strategy_cycle defaultParams 1000 [] "BTCUSDT" 100 0 dfStale :=
  ⟨rfl,
    (c9_indicator_engine_pure defaultParams 1000 [] "BTCUSDT" 100 0 dfFlat dfFlat dfStale).1 rfl⟩

/-- C10: available capital never becomes negative during allocation: every
committed trade amount is clamped to the remaining balance, so from any
non-negative starting balance the final balance is non-negative and equals
the starting balance minus the sum of the amounts committed during the
loop. -/
theorem c10_balance_never_negative :
    ∀ (maxP : ℕ) (fixedAmt minAmt : ℚ) (signals : List BuySignal) (st : AllocState),
    0 ≤ st.balance →
    0 ≤ (allocLoop maxP fixedAmt minAmt signals st).balance
    ∧ (allocLoop maxP fixedAmt minAmt signals st).balance
        + sumAmounts (allocLoop maxP fixedAmt minAmt signals st).committed
      = st.balance + sumAmounts st.committed := by
  intro maxP fixedAmt minAmt signals
  induction signals with
  | nil =>
      intro st h
      constructor
      · simpa [allocLoop] using h
      · simp [allocLoop]
  | cons sig rest ih =>
      intro st h
      unfold allocLoop
      split_ifs with h1 h2
      · exact ⟨h, rfl⟩
      · have hle := tradeAmountFor_le fixedAmt st.balance
        have hb : (0 : ℚ) ≤ st.balance - tradeAmountFor fixedAmt st.balance := by linarith
        have hih := ih
          { open_positions := setPos st.open_positions sig.symbol
              (simulate_buy sig.symbol sig.price sig.timestamp (tradeAmountFor fixedAmt st.balance))
            balance := st.balance - tradeAmountFor fixedAmt st.balance
            committed := st.committed ++ [(sig, tradeAmountFor fixedAmt st.balance)] } hb
        refine ⟨hih.1, ?_⟩
        have h2eq := hih.2
        rw [sumAmounts_append, sumAmounts_single] at h2eq
        dsimp only at h2eq
        rw [h2eq]
        ring
      · exact ⟨h, rfl⟩

/-- C10 witness: from balance 1000 with two fundable candidates the final
balance is non-negative and accounts exactly for the committed amounts. -/
theorem c10_balance_never_negative_witness :
    (0 : ℚ) ≤ stW.balance
    ∧ 0 ≤ (allocLoop 5 100 10 [sigA, sigB] stW).balance
    ∧ (allocLoop 5 100 10 [sigA, sigB] stW).balance
        + sumAmounts (allocLoop 5 100 10 [sigA, sigB] stW).committed
      = stW.balance + sumAmounts stW.committed :=
  ⟨by norm_num [stW],
    (c10_balance_never_negative 5 100 10 [sigA, sigB] stW (by norm_num [stW])).1,
    (c10_balance_never_negative 5 100 10 [sigA, sigB] stW (by norm_num [stW])).2⟩

end Sniper
